import Mathlib

/-!
Shallow embedding of the PearlDiver bit-sliced proof-of-work engine from
`src/shaders/transform.ts` (class `PearlDiver`, converted from curl.lib.js).

Machine words (the 32-bit `Int32Array` cells holding bit-sliced trit planes)
are modelled as natural numbers below `2 ^ 32`, so that bit `b` of a word is
`Nat.testBit w b`.  Values that the original code compares against the signed
integer `-1` (the sentinel read back from the GPU) are modelled as `Int`,
matching the JavaScript comparison `=== -1`.  Trit vectors are functions
`Nat → Int`; the engine only ever reads indices below `STATE_LENGTH`.
-/

namespace PearlDiverModel

/-! ### Constants of the Curl hash (external collaborator `Curl`) -/

/-- Curl.HASH_LENGTH: number of trits in a hash. -/
def HASH_LENGTH : Nat := 243

/-- Curl.STATE_LENGTH: number of trits in the sponge state (3 × 243). -/
def STATE_LENGTH : Nat := 729

/-- Curl.NUMBER_OF_ROUNDS: permutation rounds per transform. -/
def NUMBER_OF_ROUNDS : Nat := 81

/-! ### PearlDiver constants (transform.ts lines 52-79) -/

/-- PearlDiver.TRANSACTION_LENGTH = Curl.HASH_LENGTH * 33. -/
def TRANSACTION_LENGTH : Nat := HASH_LENGTH * 33

/-- PearlDiver.TEXEL_SIZE: channels per buffer texel. -/
def TEXEL_SIZE : Nat := 4

/-- PearlDiver.NONCE_LENGTH = Curl.HASH_LENGTH / 3. -/
def NONCE_LENGTH : Nat := HASH_LENGTH / 3

/-- PearlDiver.NONCE_START = Curl.HASH_LENGTH - PearlDiver.NONCE_LENGTH. -/
def NONCE_START : Nat := HASH_LENGTH - NONCE_LENGTH

/-- PearlDiver.LOW_BITS = 0 (all 32 bits clear). -/
def LOW_BITS : Nat := 0

/-- PearlDiver.HIGH_BITS = -1 as an Int32, i.e. the all-ones bit pattern. -/
def HIGH_BITS : Nat := 0xFFFFFFFF

/-- PearlDiver.LOW_0: first counter-seed word of the low plane. -/
def LOW_0 : Nat := 0xDB6DB6DB

/-- PearlDiver.LOW_1: second counter-seed word of the low plane. -/
def LOW_1 : Nat := 0xF1F8FC7E

/-- PearlDiver.LOW_2: third counter-seed word of the low plane. -/
def LOW_2 : Nat := 0x7FFFE00F

/-- PearlDiver.LOW_3: fourth counter-seed word of the low plane. -/
def LOW_3 : Nat := 0xFFC00000

/-- PearlDiver.HIGH_0: first counter-seed word of the high plane. -/
def HIGH_0 : Nat := 0xB6DB6DB6

/-- PearlDiver.HIGH_1: second counter-seed word of the high plane. -/
def HIGH_1 : Nat := 0x8FC7E3F1

/-- PearlDiver.HIGH_2: third counter-seed word of the high plane. -/
def HIGH_2 : Nat := 0xFFC01FFF

/-- PearlDiver.HIGH_3: fourth counter-seed word of the high plane. -/
def HIGH_3 : Nat := 0x003FFFFF

/-! ### Bit-slice codec (transform.ts `searchToPair` / `searchOffset`) -/

/-- PearlDiverSearchStates: the two bit-plane arrays, indexed by cell. -/
structure PearlDiverSearchStates where
  low : Nat → Nat
  high : Nat → Nat

/-- Body of the `switch (trit)` in `searchToPair` (lines 203-217): the word
pair written for one input trit.  `case 0` gives `(HIGH_BITS, HIGH_BITS)`,
`case 1` gives `(LOW_BITS, HIGH_BITS)` and the `default` branch gives
`(HIGH_BITS, LOW_BITS)`. -/
def tritToPair (trit : Int) : Nat × Nat :=
  if trit = 0 then (HIGH_BITS, HIGH_BITS)
  else if trit = 1 then (LOW_BITS, HIGH_BITS)
  else (HIGH_BITS, LOW_BITS)

/-- Functional update of one cell of a bit plane. -/
def updateAt (f : Nat → Nat) (i : Nat) (v : Nat) : Nat → Nat :=
  fun j => if j = i then v else f j

/-- PearlDiver.searchOffset (lines 223-232): writes the four counter-seed
words into each plane starting at `offset`. -/
def searchOffset (states : PearlDiverSearchStates) (offset : Nat) :
    PearlDiverSearchStates :=
  { low := updateAt (updateAt (updateAt (updateAt states.low offset LOW_0)
      (offset + 1) LOW_1) (offset + 2) LOW_2) (offset + 3) LOW_3,
    high := updateAt (updateAt (updateAt (updateAt states.high offset HIGH_0)
      (offset + 1) HIGH_1) (offset + 2) HIGH_2) (offset + 3) HIGH_3 }

/-- PearlDiver.searchToPair (lines 198-220): encode each trit of the state
through `tritToPair`, then overwrite the counter-seed cells at
`NONCE_START`. -/
def searchToPair (state : Nat → Int) : PearlDiverSearchStates :=
  searchOffset
    { low := fun index => (tritToPair (state index)).1,
      high := fun index => (tritToPair (state index)).2 }
    NONCE_START

/-- Modelled from the spec: the `decode` half of the Bit-slice Codec (§4.1)
is implemented by the `finalize` shader and the read-back path, which are not
among the given source files.  Per the spec's §3 rule, for one lane the bit
pair `(low, high)` decodes as `(1,1) → 0`, `(0,1) → +1`, `(1,0) → −1`; the
pair `(0,0)` is invalid (undefined behaviour), modelled arbitrarily as `-1`
here. -/
def decodePairBit (lo hi : Bool) : Int :=
  if lo && hi then 0
  else if hi then 1
  else -1

/-- Modelled from the spec: decode one cell of a bit-sliced state for one
lane (bit position). -/
def decodeLane (states : PearlDiverSearchStates) (lane index : Nat) : Int :=
  decodePairBit ((states.low index).testBit lane) ((states.high index).testBit lane)

/-- Trit sequence seeded into one lane by the four counter-seed word pairs. -/
def seedTrits (lane : Nat) : List Int :=
  [decodePairBit (LOW_0.testBit lane) (HIGH_0.testBit lane),
   decodePairBit (LOW_1.testBit lane) (HIGH_1.testBit lane),
   decodePairBit (LOW_2.testBit lane) (HIGH_2.testBit lane),
   decodePairBit (LOW_3.testBit lane) (HIGH_3.testBit lane)]

/-! ### Search orchestrator (transform.ts lines 81-301)

The Compute Backend (`WebGLWorker`) is external: kernel dispatches, buffer
uploads and read-backs are recorded as a trace of events, and the one value
the orchestrator actually branches on — channel 2 of the sentinel texel
returned by `readData(STATE_LENGTH, 0, 1, 1)` — is passed in as an oracle
parameter.  `setTimeout` continuations are modelled by the `scheduled`
field; a JavaScript `TypeError` from dereferencing an `undefined` job is
modelled by the `crashed` flag. -/

/-- PearlDiverState (imported enum; its three values are the ones used by
transform.ts). -/
inductive PearlDiverState
  | ready
  | searching
  | interrupted
deriving DecidableEq, Repr

/-- PearlDiverSearchObject: one queued search job.  The `callback` closure is
identified by a number so that its invocation can be recorded in the event
trace. -/
structure PearlDiverSearchObject where
  states : PearlDiverSearchStates
  minWeightMagnitude : Int
  callbackId : Nat

/-- CoreError: the error constructed by `search` for a bad min-weight
magnitude (message plus the offending value). -/
structure CoreError where
  message : String
  minWeight : Int
deriving DecidableEq, Repr

/-- Observable interactions of one orchestrator step: Compute Backend
operations (uniform values are not recorded) and continuation invocations. -/
inductive Event
  | writeData
  | runProgram (name : String) (count : Nat)
  | readData (x y w h : Nat)
  | callbackInvoked (id : Nat)
deriving DecidableEq, Repr

/-- Whether an event is a Compute Backend operation (buffer write, kernel
dispatch or buffer read) rather than a host-side callback. -/
def Event.isBackendOp : Event → Bool
  | .writeData => true
  | .runProgram _ _ => true
  | .readData _ _ _ _ => true
  | .callbackInvoked _ => false

/-- Mutable fields of the PearlDiver instance: the job queue, the engine
state, the nonce start offset and the host-side copy of the backend buffer
(`_currentBuffer`, a flat array; channel `c` of texel `i` lives at index
`i * TEXEL_SIZE + c`). -/
structure Engine where
  queue : List PearlDiverSearchObject
  state : PearlDiverState
  offset : Int
  currentBuffer : Nat → Nat

/-- Result of one synchronous step of the orchestrator: the new engine
fields, the trace of events, the `setTimeout`-scheduled `webGLSearch`
continuation if any, and whether the step dereferenced `undefined`. -/
structure StepResult where
  engine : Engine
  events : List Event
  scheduled : Option PearlDiverSearchObject
  crashed : Bool

/-- PearlDiver.interrupt (lines 141-145). -/
def interrupt (e : Engine) : Engine :=
  if e.state = PearlDiverState.searching then
    { e with state := PearlDiverState.interrupted }
  else e

/-- PearlDiver.setOffset (lines 134-136). -/
def setOffset (e : Engine) (offset : Int) : Engine :=
  { e with offset := offset }

/-- PearlDiver.remove (lines 157-159): `Array.pop` drops the tail job. -/
def remove (e : Engine) : Engine :=
  { e with queue := e.queue.dropLast }

/-- PearlDiver.webGLWriteBuffers (lines 254-261): copy both planes into the
flat buffer, each cell duplicated over channel pairs (0,1) and (2,3). -/
def webGLWriteBuffers (buf : Nat → Nat) (states : PearlDiverSearchStates) :
    Nat → Nat :=
  fun k =>
    if k < STATE_LENGTH * TEXEL_SIZE then
      if k % TEXEL_SIZE = 0 then states.low (k / TEXEL_SIZE)
      else if k % TEXEL_SIZE = 1 then states.high (k / TEXEL_SIZE)
      else if k % TEXEL_SIZE = 2 then states.low (k / TEXEL_SIZE)
      else states.high (k / TEXEL_SIZE)
    else buf k

/-- PearlDiver.webGLFindNonce (lines 246-251).  The argument is the value of
`this._queue.shift()`, which is `undefined` (`none`) on an empty queue; in
that case line 247 dereferences `searchObject.states` and throws. -/
def webGLFindNonce (e : Engine) (searchObject : Option PearlDiverSearchObject) :
    StepResult :=
  match searchObject with
  | none =>
      { engine := e, events := [], scheduled := none, crashed := true }
  | some so =>
      { engine := { e with currentBuffer := webGLWriteBuffers e.currentBuffer so.states },
        events := [Event.writeData, Event.runProgram "init" 1],
        scheduled := some so,
        crashed := false }

/-- PearlDiver.searchDoNext (lines 235-243): pop the queue head; if the
engine is not `searching`, become `searching` and dispatch the popped job;
otherwise just become `ready` (the popped job is dropped). -/
def searchDoNext (e : Engine) : StepResult :=
  let next := e.queue.head?
  let popped : Engine := { e with queue := e.queue.tail }
  if popped.state ≠ PearlDiverState.searching then
    webGLFindNonce { popped with state := PearlDiverState.searching } next
  else
    { engine := { popped with state := PearlDiverState.ready },
      events := [], scheduled := none, crashed := false }

/-- PearlDiver.resume (lines 150-152). -/
def resume (e : Engine) : StepResult :=
  searchDoNext e

/-- PearlDiver.search (lines 178-195): reject a min-weight magnitude outside
`(0, HASH_LENGTH)` without touching the engine; otherwise push the job at
the queue tail and, only when the engine is `ready`, run `searchDoNext`.
The first component is the synchronous outcome of the returned promise
(`error` = rejected). -/
def search (e : Engine) (states : PearlDiverSearchStates) (minWeight : Int)
    (cbId : Nat) : Except CoreError Unit × StepResult :=
  if (HASH_LENGTH : Int) ≤ minWeight ∨ minWeight ≤ 0 then
    (Except.error { message := "Bad Min-Weight Magnitude", minWeight := minWeight },
     { engine := e, events := [], scheduled := none, crashed := false })
  else
    let e1 : Engine := { e with queue := e.queue ++
      [{ states := states, minWeightMagnitude := minWeight, callbackId := cbId }] }
    if e1.state = PearlDiverState.ready then
      (Except.ok (), searchDoNext e1)
    else
      (Except.ok (), { engine := e1, events := [], scheduled := none, crashed := false })

/-- Inverse of `webGLWriteBuffers`'s layout, as computed by
PearlDiver.saveSearch's reduce chain (lines 288-293): plane `low` is channel
0 of the first `STATE_LENGTH` texels, plane `high` is channel 1. -/
def snapshotStates (buf : Nat → Nat) : PearlDiverSearchStates :=
  { low := fun i => buf (i * TEXEL_SIZE),
    high := fun i => buf (i * TEXEL_SIZE + 1) }

/-- PearlDiver.saveSearch (lines 287-296): write the buffer snapshot back
into the job's states and `unshift` the job onto the queue head. -/
def saveSearch (e : Engine) (searchObject : PearlDiverSearchObject) : Engine :=
  { e with queue :=
      { searchObject with states := snapshotStates e.currentBuffer } :: e.queue }

/-- Grid width requested from the Compute Backend
(`initialize(Curl.STATE_LENGTH + 1, TEXEL_SIZE)`, line 97); the backend's
`getDimensions().x` is modelled as this requested width. -/
def GRID_WIDTH : Nat := STATE_LENGTH + 1

/-- PearlDiver.webGLSearch (lines 264-284): one round of the loop.
`sentinel` is channel 2 of the texel read back by
`readData(STATE_LENGTH, 0, 1, 1)`.  When it equals `-1`: if interrupted,
save the search (no reschedule), else reschedule this round via
`setTimeout`.  Otherwise: dispatch `finalize`, read the nonce row, invoke
the job's callback, and fall through to `searchDoNext`. -/
def webGLSearch (e : Engine) (searchObject : PearlDiverSearchObject)
    (sentinel : Int) : StepResult :=
  let rounds : List Event :=
    [Event.runProgram "increment" 1,
     Event.runProgram "twist" NUMBER_OF_ROUNDS,
     Event.runProgram "check" 1,
     Event.runProgram "col_check" 1,
     Event.readData STATE_LENGTH 0 1 1]
  if sentinel = -1 then
    if e.state = PearlDiverState.interrupted then
      { engine := saveSearch e searchObject,
        events := rounds, scheduled := none, crashed := false }
    else
      { engine := e, events := rounds, scheduled := some searchObject, crashed := false }
  else
    let nextStep := searchDoNext e
    { engine := nextStep.engine,
      events := rounds ++
        [Event.runProgram "finalize" 1,
         Event.readData 0 0 GRID_WIDTH 1,
         Event.callbackInvoked searchObject.callbackId] ++ nextStep.events,
      scheduled := nextStep.scheduled,
      crashed := nextStep.crashed }

/-! ### Concrete fixtures used by witnesses and counterexamples -/

/-- All-zero trit vector. -/
def zeroTrits : Nat → Int := fun _ => 0

/-- All-zero pair of bit planes. -/
def emptyStates : PearlDiverSearchStates :=
  { low := fun _ => 0, high := fun _ => 0 }

/-- Concrete job used in witnesses. -/
def jobA : PearlDiverSearchObject :=
  { states := emptyStates, minWeightMagnitude := 18, callbackId := 7 }

/-- Concrete idle engine with an empty queue and zeroed buffer. -/
def engReady : Engine :=
  { queue := [], state := PearlDiverState.ready, offset := 0,
    currentBuffer := fun _ => 0 }

/-- Concrete engine in the `searching` state. -/
def engSearching : Engine :=
  { engReady with state := PearlDiverState.searching }

/-- Concrete engine in the `interrupted` state. -/
def engInterrupted : Engine :=
  { engReady with state := PearlDiverState.interrupted }

/-- Concrete engine that is `ready` with one queued job. -/
def engReadyQ : Engine :=
  { engReady with queue := [jobA] }

/-! ### Helper lemmas -/

/-- Every bit below 32 of the all-ones word is set. -/
theorem highBits_testBit : ∀ lane : Fin 32, HIGH_BITS.testBit lane.val = true := by
  decide

/-- No bit of the all-zero word is set. -/
theorem lowBits_testBit (lane : Nat) : LOW_BITS.testBit lane = false := by
  simp [LOW_BITS]

/-- Each of the four counter-seed word pairs has, at every lane below 32, at
least one of its two bits set (no `(0,0)` lane pattern). -/
theorem seedPairs_or : ∀ lane : Fin 32,
    (LOW_0.testBit lane.val = true ∨ HIGH_0.testBit lane.val = true) ∧
    (LOW_1.testBit lane.val = true ∨ HIGH_1.testBit lane.val = true) ∧
    (LOW_2.testBit lane.val = true ∨ HIGH_2.testBit lane.val = true) ∧
    (LOW_3.testBit lane.val = true ∨ HIGH_3.testBit lane.val = true) := by
  decide

/-- Outside the four counter-seed cells, `searchToPair` is the plain
per-trit encoding. -/
theorem searchToPair_outside (t : Nat → Int) (i : Nat)
    (h : i < NONCE_START ∨ NONCE_START + 4 ≤ i) :
    (searchToPair t).low i = (tritToPair (t i)).1 ∧
    (searchToPair t).high i = (tritToPair (t i)).2 := by
  have h0 : i ≠ NONCE_START := by omega
  have h1 : i ≠ NONCE_START + 1 := by omega
  have h2 : i ≠ NONCE_START + 2 := by omega
  have h3 : i ≠ NONCE_START + 3 := by omega
  constructor <;> simp [searchToPair, searchOffset, updateAt, h0, h1, h2, h3]

/-- At the four counter-seed cells, `searchToPair` writes the eight seed
words, whatever the input trits. -/
theorem searchToPair_seed (t : Nat → Int) :
    (searchToPair t).low NONCE_START = LOW_0 ∧
    (searchToPair t).low (NONCE_START + 1) = LOW_1 ∧
    (searchToPair t).low (NONCE_START + 2) = LOW_2 ∧
    (searchToPair t).low (NONCE_START + 3) = LOW_3 ∧
    (searchToPair t).high NONCE_START = HIGH_0 ∧
    (searchToPair t).high (NONCE_START + 1) = HIGH_1 ∧
    (searchToPair t).high (NONCE_START + 2) = HIGH_2 ∧
    (searchToPair t).high (NONCE_START + 3) = HIGH_3 := by
  have hN : NONCE_START = 162 := rfl
  refine ⟨?_, ?_, ?_, ?_, ?_, ?_, ?_, ?_⟩ <;>
    simp [searchToPair, searchOffset, updateAt, hN]

/-! ### Claim theorems -/

/-- C1 counterexample: the claim says finalize runs exactly when the
sentinel cell holds the out-of-band all-ones value (`-1` as an Int32).  On a
concrete searching engine, reading back all-ones does NOT dispatch
`finalize` (the loop keeps searching), while reading back `0` (which the
claim calls "still searching") DOES dispatch `finalize`. -/
theorem c1_counterexample :
    Event.runProgram "finalize" 1 ∉ (webGLSearch engSearching jobA (-1)).events ∧
    Event.runProgram "finalize" 1 ∈ (webGLSearch engSearching jobA 0).events := by
  decide

/-- C1 (amended): the sentinel cell read back after `column-check` holds the
all-ones value (`-1`) while the search must continue and any other value
signals that some lane succeeded: each round reads exactly that one cell
(`readData(STATE_LENGTH, 0, 1, 1)`), reschedules itself while the value is
all-ones (unless interrupted), and dispatches `finalize` (then the callback)
exactly when the value differs from all-ones. -/
theorem c1_sentinel_round_loop (e : Engine) (so : PearlDiverSearchObject)
    (sentinel : Int) :
    Event.readData STATE_LENGTH 0 1 1 ∈ (webGLSearch e so sentinel).events ∧
    (sentinel = -1 →
      Event.runProgram "finalize" 1 ∉ (webGLSearch e so sentinel).events ∧
      (e.state ≠ PearlDiverState.interrupted →
        (webGLSearch e so sentinel).scheduled = some so ∧
        (webGLSearch e so sentinel).engine = e)) ∧
    (sentinel ≠ -1 →
      Event.runProgram "finalize" 1 ∈ (webGLSearch e so sentinel).events ∧
      Event.callbackInvoked so.callbackId ∈ (webGLSearch e so sentinel).events) := by
  by_cases hs : sentinel = -1
  · by_cases hi : e.state = PearlDiverState.interrupted <;>
      simp [webGLSearch, hs, hi]
  · simp [webGLSearch, hs]

/-- C1 witness: concrete instance of the amended round-loop behaviour. -/
theorem c1_sentinel_round_loop_witness :
    Event.readData STATE_LENGTH 0 1 1 ∈ (webGLSearch engSearching jobA (-1)).events ∧
    (webGLSearch engSearching jobA (-1)).scheduled = some jobA ∧
    Event.runProgram "finalize" 1 ∈ (webGLSearch engSearching jobA 0).events :=
  ⟨(c1_sentinel_round_loop engSearching jobA (-1)).1,
   (((c1_sentinel_round_loop engSearching jobA (-1)).2.1 rfl).2 (by decide)).1,
   ((c1_sentinel_round_loop engSearching jobA 0).2.2 (by decide)).1⟩

/-- C2: `searchDoNext` pops the queue head in both branches.  When the
engine is already `searching` it just transitions to `ready` — the popped
job is not dispatched (no events, nothing scheduled).  When it is not
`searching` it transitions to `searching` and begins the round loop on the
popped job: uploads its state (`writeData`), dispatches `init`, and
schedules `webGLSearch` on that job. -/
theorem c2_searchDoNext_asymmetry (e : Engine) :
    (e.state = PearlDiverState.searching →
      (searchDoNext e).engine.queue = e.queue.tail ∧
      (searchDoNext e).engine.state = PearlDiverState.ready ∧
      (searchDoNext e).events = [] ∧
      (searchDoNext e).scheduled = none) ∧
    (e.state ≠ PearlDiverState.searching → ∀ j rest, e.queue = j :: rest →
      (searchDoNext e).engine.state = PearlDiverState.searching ∧
      (searchDoNext e).engine.queue = rest ∧
      (searchDoNext e).scheduled = some j ∧
      Event.writeData ∈ (searchDoNext e).events ∧
      Event.runProgram "init" 1 ∈ (searchDoNext e).events) := by
  constructor
  · intro hs
    simp [searchDoNext, hs]
  · intro hs j rest hq
    simp [searchDoNext, hs, hq, webGLFindNonce]

/-- C2 witness: concrete instances of both branches. -/
theorem c2_searchDoNext_asymmetry_witness :
    (searchDoNext engSearching).engine.state = PearlDiverState.ready ∧
    (searchDoNext engSearching).scheduled = none ∧
    (searchDoNext engReadyQ).scheduled = some jobA ∧
    (searchDoNext engReadyQ).engine.state = PearlDiverState.searching :=
  ⟨((c2_searchDoNext_asymmetry engSearching).1 rfl).2.1,
   ((c2_searchDoNext_asymmetry engSearching).1 rfl).2.2.2,
   ((c2_searchDoNext_asymmetry engReadyQ).2 (by decide) jobA [] rfl).2.2.1,
   ((c2_searchDoNext_asymmetry engReadyQ).2 (by decide) jobA [] rfl).1⟩

/-- C3 counterexample: the round trip fails on the counter-seed cells that
`searchToPair` overwrites.  For the all-zero (valid) trit vector, the cell
at `NONCE_START` decodes to `-1` on lane 0 although the input trit was `0`. -/
theorem c3_roundtrip_counterexample :
    zeroTrits NONCE_START = 0 ∧
    NONCE_START < STATE_LENGTH ∧
    decodeLane (searchToPair zeroTrits) 0 NONCE_START = -1 := by
  decide

/-- C3 (amended): decode inverts encode at every state index outside the
four counter-seed cells `[NONCE_START, NONCE_START + 4)` that
`searchOffset` overwrites, for every lane below 32 and every valid trit. -/
theorem c3_roundtrip (t : Nat → Int) (lane index : Nat)
    (hlane : lane < 32)
    (hv : t index = -1 ∨ t index = 0 ∨ t index = 1)
    (hout : index < NONCE_START ∨ NONCE_START + 4 ≤ index) :
    decodeLane (searchToPair t) lane index = t index := by
  obtain ⟨hl, hh⟩ := searchToPair_outside t index hout
  rw [decodeLane, hl, hh]
  have hHigh : HIGH_BITS.testBit lane = true := highBits_testBit ⟨lane, hlane⟩
  rcases hv with hv | hv | hv <;>
    simp [tritToPair, hv, decodePairBit, hHigh, lowBits_testBit]

/-- C3 witness: concrete round trip at index 0, lane 0, trit 0. -/
theorem c3_roundtrip_witness :
    decodeLane (searchToPair zeroTrits) 0 0 = zeroTrits 0 :=
  c3_roundtrip zeroTrits 0 0 (by decide) (Or.inr (Or.inl rfl)) (Or.inl (by decide))

/-- C4: a min-weight magnitude outside `(0, HASH_LENGTH)` is rejected
synchronously with the invalid-parameter error; the engine is unchanged (in
particular the job is not enqueued), no backend event is emitted and nothing
is scheduled. -/
theorem c4_difficulty_validation (e : Engine) (states : PearlDiverSearchStates)
    (minWeight : Int) (cbId : Nat)
    (h : minWeight ≤ 0 ∨ (HASH_LENGTH : Int) ≤ minWeight) :
    (search e states minWeight cbId).1 =
      Except.error { message := "Bad Min-Weight Magnitude", minWeight := minWeight } ∧
    (search e states minWeight cbId).2.engine = e ∧
    (search e states minWeight cbId).2.events = [] ∧
    (search e states minWeight cbId).2.scheduled = none := by
  have hc : (HASH_LENGTH : Int) ≤ minWeight ∨ minWeight ≤ 0 := h.symm
  unfold search
  rw [if_pos hc]
  exact ⟨rfl, rfl, rfl, rfl⟩

/-- C4 witness: difficulty 0, HASH_LENGTH and a negative value are all
rejected with the engine untouched. -/
theorem c4_difficulty_validation_witness :
    (search engReady emptyStates 0 0).1 =
      Except.error { message := "Bad Min-Weight Magnitude", minWeight := 0 } ∧
    (search engReady emptyStates 243 0).2.events = [] ∧
    (search engReady emptyStates (-5) 0).2.engine = engReady :=
  ⟨(c4_difficulty_validation engReady emptyStates 0 0 (Or.inl (by decide))).1,
   (c4_difficulty_validation engReady emptyStates 243 0 (Or.inr (by decide))).2.2.1,
   (c4_difficulty_validation engReady emptyStates (-5) 0 (Or.inl (by decide))).2.1⟩

/-- C5: the per-trit bit-slice rule of `searchToPair`'s switch, at every one
of the 32 bit positions of each word pair: trit `0` gives bits `(1,1)`,
trit `+1` gives `(0,1)`, trit `-1` gives `(1,0)`; and the invalid `(0,0)`
lane pattern is never produced at any cell of the encoded output, the
counter-seed cells included. -/
theorem c5_encoding_rule (t : Nat → Int) (index lane : Nat) (hlane : lane < 32) :
    ((tritToPair 0).1.testBit lane = true ∧ (tritToPair 0).2.testBit lane = true) ∧
    ((tritToPair 1).1.testBit lane = false ∧ (tritToPair 1).2.testBit lane = true) ∧
    ((tritToPair (-1)).1.testBit lane = true ∧ (tritToPair (-1)).2.testBit lane = false) ∧
    (((searchToPair t).low index).testBit lane = true ∨
     ((searchToPair t).high index).testBit lane = true) := by
  have hHigh : HIGH_BITS.testBit lane = true := highBits_testBit ⟨lane, hlane⟩
  have hLow : LOW_BITS.testBit lane = false := lowBits_testBit lane
  have hseed := seedPairs_or ⟨lane, hlane⟩
  refine ⟨⟨?_, ?_⟩, ⟨?_, ?_⟩, ⟨?_, ?_⟩, ?_⟩
  · simp [tritToPair, hHigh]
  · simp [tritToPair, hHigh]
  · simp [tritToPair, hLow]
  · simp [tritToPair, hHigh]
  · simp [tritToPair, hHigh]
  · simp [tritToPair, hLow]
  · by_cases h0 : index = NONCE_START
    · subst h0
      rw [(searchToPair_seed t).1, (searchToPair_seed t).2.2.2.2.1]
      exact hseed.1
    by_cases h1 : index = NONCE_START + 1
    · subst h1
      rw [(searchToPair_seed t).2.1, (searchToPair_seed t).2.2.2.2.2.1]
      exact hseed.2.1
    by_cases h2 : index = NONCE_START + 2
    · subst h2
      rw [(searchToPair_seed t).2.2.1, (searchToPair_seed t).2.2.2.2.2.2.1]
      exact hseed.2.2.1
    by_cases h3 : index = NONCE_START + 3
    · subst h3
      rw [(searchToPair_seed t).2.2.2.1, (searchToPair_seed t).2.2.2.2.2.2.2]
      exact hseed.2.2.2
    have hout : index < NONCE_START ∨ NONCE_START + 4 ≤ index := by omega
    obtain ⟨hl, hh⟩ := searchToPair_outside t index hout
    rw [hl, hh]
    by_cases ht0 : t index = 0
    · simp [tritToPair, ht0, hHigh]
    by_cases ht1 : t index = 1
    · simp [tritToPair, ht0, ht1, hHigh]
    · simp [tritToPair, ht0, ht1, hHigh]

/-- C5 witness: concrete instance of the encoding rule at index 0, lane 0. -/
theorem c5_encoding_rule_witness :
    ((tritToPair 0).1.testBit 0 = true ∧ (tritToPair 0).2.testBit 0 = true) ∧
    (((searchToPair zeroTrits).low 0).testBit 0 = true ∨
     ((searchToPair zeroTrits).high 0).testBit 0 = true) :=
  ⟨(c5_encoding_rule zeroTrits 0 0 (by decide)).1,
   (c5_encoding_rule zeroTrits 0 0 (by decide)).2.2.2⟩

/-- C6: with a valid min-weight magnitude, `search` accepts the call, the
new job goes to the queue's tail, and the queue head starts processing
exactly when the engine was `ready`: otherwise the queue simply grows, no
event is emitted and nothing is scheduled (single-flight). -/
theorem c6_enqueue_single_flight (e : Engine) (states : PearlDiverSearchStates)
    (minWeight : Int) (cbId : Nat)
    (h0 : 0 < minWeight) (h1 : minWeight < (HASH_LENGTH : Int)) :
    (search e states minWeight cbId).1 = Except.ok () ∧
    (e.state ≠ PearlDiverState.ready →
      (search e states minWeight cbId).2.engine.queue =
        e.queue ++ [{ states := states, minWeightMagnitude := minWeight, callbackId := cbId }] ∧
      (search e states minWeight cbId).2.engine.state = e.state ∧
      (search e states minWeight cbId).2.events = [] ∧
      (search e states minWeight cbId).2.scheduled = none) ∧
    (e.state = PearlDiverState.ready → ∀ j l,
      e.queue ++ [{ states := states, minWeightMagnitude := minWeight, callbackId := cbId }] = j :: l →
      (search e states minWeight cbId).2.engine.state = PearlDiverState.searching ∧
      (search e states minWeight cbId).2.scheduled = some j ∧
      (search e states minWeight cbId).2.engine.queue = l ∧
      Event.writeData ∈ (search e states minWeight cbId).2.events ∧
      Event.runProgram "init" 1 ∈ (search e states minWeight cbId).2.events) := by
  have hH : (HASH_LENGTH : Int) = 243 := rfl
  have hc : ¬((HASH_LENGTH : Int) ≤ minWeight ∨ minWeight ≤ 0) := by
    rw [hH] at h1 ⊢
    omega
  refine ⟨?_, ?_, ?_⟩
  · by_cases hr : e.state = PearlDiverState.ready <;> simp [search, hc, hr]
  · intro hr
    simp [search, hc, hr]
  · intro hr j l hjl
    simp [search, hc, hr, searchDoNext, webGLFindNonce, hjl]

/-- C6 witness: a valid call on a ready engine dispatches; on a searching
engine it only enqueues. -/
theorem c6_enqueue_single_flight_witness :
    (search engReady emptyStates 18 0).1 = Except.ok () ∧
    (search engSearching emptyStates 18 0).2.events = [] ∧
    (search engReady emptyStates 18 0).2.engine.state = PearlDiverState.searching :=
  ⟨(c6_enqueue_single_flight engReady emptyStates 18 0 (by decide) (by decide)).1,
   ((c6_enqueue_single_flight engSearching emptyStates 18 0 (by decide) (by decide)).2.1
     (by decide)).2.2.1,
   ((c6_enqueue_single_flight engReady emptyStates 18 0 (by decide) (by decide)).2.2 rfl
     { states := emptyStates, minWeightMagnitude := 18, callbackId := 0 } [] rfl).1⟩

/-- C7: when the sentinel reads all-ones (no match) on an interrupted
engine, the round step snapshots the buffer back into the job's low/high
planes (channel 0 and channel 1 of each texel), re-inserts that job at the
queue head, schedules no further round, leaves the engine `interrupted`,
and never invokes the job's continuation or `finalize`. -/
theorem c7_interruption_snapshot (e : Engine) (so : PearlDiverSearchObject)
    (h : e.state = PearlDiverState.interrupted) :
    (webGLSearch e so (-1)).engine.queue =
      { so with states := snapshotStates e.currentBuffer } :: e.queue ∧
    (∀ i, (snapshotStates e.currentBuffer).low i = e.currentBuffer (i * TEXEL_SIZE) ∧
      (snapshotStates e.currentBuffer).high i = e.currentBuffer (i * TEXEL_SIZE + 1)) ∧
    (webGLSearch e so (-1)).engine.state = PearlDiverState.interrupted ∧
    (webGLSearch e so (-1)).scheduled = none ∧
    (webGLSearch e so (-1)).crashed = false ∧
    Event.callbackInvoked so.callbackId ∉ (webGLSearch e so (-1)).events ∧
    Event.runProgram "finalize" 1 ∉ (webGLSearch e so (-1)).events := by
  simp [webGLSearch, h, saveSearch, snapshotStates]

/-- C7 witness: concrete interrupted engine, sentinel all-ones. -/
theorem c7_interruption_snapshot_witness :
    (webGLSearch engInterrupted jobA (-1)).scheduled = none ∧
    (webGLSearch engInterrupted jobA (-1)).engine.state = PearlDiverState.interrupted :=
  ⟨(c7_interruption_snapshot engInterrupted jobA rfl).2.2.2.1,
   (c7_interruption_snapshot engInterrupted jobA rfl).2.2.1⟩

/-- C8: `interrupt` sends `searching` to `interrupted` and is the identity
in every other state; it never touches the queue or the offset, and it is
idempotent. -/
theorem c8_interrupt_idempotent (e : Engine) :
    (e.state = PearlDiverState.searching →
      interrupt e = { e with state := PearlDiverState.interrupted }) ∧
    (e.state ≠ PearlDiverState.searching → interrupt e = e) ∧
    (interrupt e).queue = e.queue ∧
    (interrupt e).offset = e.offset ∧
    interrupt (interrupt e) = interrupt e := by
  refine ⟨fun h => by simp [interrupt, h], fun h => by simp [interrupt, h], ?_, ?_, ?_⟩ <;>
    by_cases h : e.state = PearlDiverState.searching <;>
      simp [interrupt, h]

/-- C8 witness: concrete searching and ready engines. -/
theorem c8_interrupt_idempotent_witness :
    interrupt engSearching = { engSearching with state := PearlDiverState.interrupted } ∧
    interrupt engReady = engReady :=
  ⟨(c8_interrupt_idempotent engSearching).1 rfl,
   (c8_interrupt_idempotent engReady).2.1 (by decide)⟩

/-- C9 counterexample: the claim places the nonce field at the last `S/3`
cells of the state (offset `STATE_LENGTH - STATE_LENGTH / 3 = 486`), but
the counter-seed words are written starting at `NONCE_START = 162` — inside
the hash-length prefix — and the cell at 486 keeps its plain trit encoding. -/
theorem c9_nonce_field_counterexample :
    STATE_LENGTH - STATE_LENGTH / 3 = 486 ∧
    NONCE_START = 162 ∧
    (searchToPair zeroTrits).low 486 = HIGH_BITS ∧
    HIGH_BITS ≠ LOW_0 ∧
    (searchToPair zeroTrits).low NONCE_START = LOW_0 := by
  decide

/-- C9 (amended): for every input trit vector, encoding overwrites the
first four cells of the nonce field — which starts at
`NONCE_START = HASH_LENGTH - HASH_LENGTH / 3`, the last third of the
hash-length prefix of the state — with four constant counter-seed words on
each half, leaves every other cell at its per-trit encoding, and the 32
lanes of those word pairs all start from pairwise distinct 4-trit nonce
patterns. -/
theorem c9_nonce_seed (t : Nat → Int) :
    NONCE_START = HASH_LENGTH - HASH_LENGTH / 3 ∧
    ((searchToPair t).low NONCE_START = LOW_0 ∧
     (searchToPair t).low (NONCE_START + 1) = LOW_1 ∧
     (searchToPair t).low (NONCE_START + 2) = LOW_2 ∧
     (searchToPair t).low (NONCE_START + 3) = LOW_3 ∧
     (searchToPair t).high NONCE_START = HIGH_0 ∧
     (searchToPair t).high (NONCE_START + 1) = HIGH_1 ∧
     (searchToPair t).high (NONCE_START + 2) = HIGH_2 ∧
     (searchToPair t).high (NONCE_START + 3) = HIGH_3) ∧
    (∀ i, i < NONCE_START ∨ NONCE_START + 4 ≤ i →
      (searchToPair t).low i = (tritToPair (t i)).1 ∧
      (searchToPair t).high i = (tritToPair (t i)).2) ∧
    (∀ b1 b2 : Fin 32, b1 ≠ b2 → seedTrits b1.val ≠ seedTrits b2.val) :=
  ⟨rfl, searchToPair_seed t, fun i hi => searchToPair_outside t i hi, by decide⟩

/-- C9 witness: concrete seed write and untouched cell for the all-zero
vector. -/
theorem c9_nonce_seed_witness :
    (searchToPair zeroTrits).low NONCE_START = LOW_0 ∧
    (searchToPair zeroTrits).low 0 = (tritToPair (zeroTrits 0)).1 :=
  ⟨(c9_nonce_seed zeroTrits).2.1.1,
   ((c9_nonce_seed zeroTrits).2.2.1 0 (Or.inl (by decide))).1⟩

/-- C10: calling `resume` with an empty queue while the engine is not
`searching` reaches `webGLFindNonce` with an `undefined` popped job: the
engine is first flipped to `searching` and then the access to the missing
job's `states` field crashes (modelled by the `crashed` flag) before any
backend event. -/
theorem c10_resume_empty_queue (e : Engine)
    (hq : e.queue = []) (hs : e.state ≠ PearlDiverState.searching) :
    (resume e).crashed = true ∧
    (resume e).engine.state = PearlDiverState.searching ∧
    (resume e).events = [] := by
  simp [resume, searchDoNext, hq, hs, webGLFindNonce]

/-- C10 witness: concrete idle engine with an empty queue. -/
theorem c10_resume_empty_queue_witness :
    (resume engReady).crashed = true ∧
    (resume engReady).engine.state = PearlDiverState.searching :=
  ⟨(c10_resume_empty_queue engReady rfl (by decide)).1,
   (c10_resume_empty_queue engReady rfl (by decide)).2.1⟩

end PearlDiverModel
